import Mathlib

/-!
Shallow embedding of the retry-and-dispatch core of podaac/swodlr-common-py
(`podaac/swodlr_common/decorators.py`, `podaac/swodlr_common/job_handler.py`)
and of the semantic-version comparison in `podaac/swodlr_common/utilities.py`,
together with theorems about the embedded operations.

Modelling conventions:
* Job records are Python dicts that passed jobset-schema validation; they are
  modelled as a structure carrying the schema fields the core reads or writes,
  plus an opaque association list for the remaining domain fields.
* `deepcopy` is the identity on these immutable values.
* A caller-supplied handler may behave differently from call to call (it can
  close over mutable state), so it is modelled as a function of the attempt
  index as well as of the job; the real handler receives only the job.
* Logging is dropped; blocking `sleep` calls and handler invocations are
  recorded in an explicit event trace.
* Schema validation and JSON parsing are external collaborators: validators
  are parameters of type `Raw -> Option Jobset`, and a queue-message body is a
  `Body` that records whether `json.loads` succeeds and, if so, which raw
  value it yields.
-/

namespace Swodlr

/-- A job record: the jobset-schema fields that the retry/dispatch core reads
or writes, plus the remaining domain fields, which the core never touches. -/
structure Job where
  product_id : String
  job_id : String
  job_status : String
  errors : Option (List String)
  traceback : Option String
  extra : List (String × String)
deriving Repr, DecidableEq

/-- A jobset: the ordered list of job records under the single key `jobs`. -/
structure Jobset where
  jobs : List Job
deriving Repr, DecidableEq

/-- An observable side effect of the retry loop: a blocking `sleep` of the
given duration in seconds, or an invocation of the caller-supplied handler
for the given attempt index. -/
inductive Event where
  | wait (duration : Nat)
  | call (attempt : Nat)
deriving Repr, DecidableEq

/-- `hasattr(output_job, 'errors')` from the exhaustion blocks
(`decorators.py` line 123, `job_handler.py` line 87). `output_job` is a deep
copy of a job record, i.e. a Python dict; `hasattr` consults object
attributes and never dict keys, so it returns `False` for every job record,
whether or not the record has an `errors` entry. -/
def hasattr_errors (_ : Job) : Bool := false

/-- The value of `traceback.format_exc()` at `job_handler.py` line 90: the
call runs after the retry loop has finished, outside every `except` handler,
so no exception is being handled at that point; it therefore formats
`(None, None, None)` and returns this constant — whatever the last failure
was. -/
def format_exc_outside_handler : String := "NoneType: None\n"

/-- The exhaustion block shared by `try_handler` (`decorators.py` lines
116-129) and `JobHandler._try_handle_job` (`job_handler.py` lines 84-93):
deep-copy the original input job, initialize `errors` when
`hasattr(output_job, 'errors')` is false (which, `output_job` being a dict,
is always), then set `job_status` and `traceback` and append the generic
failure message to `errors`. -/
def mark_failed (input_job : Job) (exception : String) : Job :=
  let output_job := input_job
  let output_job :=
    if hasattr_errors output_job then output_job
    else { output_job with errors := some [] }
  { output_job with
      job_status := "job-failed"
      traceback := some exception
      errors := some (output_job.errors.getD [] ++ ["SDS pipeline failed"]) }

/-- The events of one iteration of the retry loop body for attempt `i`:
`duration = i ** 2`; `if duration > 0: sleep(duration)`; then the handler is
called on a deep copy of the input job. -/
def attemptEvents (i : Nat) : List Event :=
  (if i ^ 2 > 0 then [Event.wait (i ^ 2)] else []) ++ [Event.call i]

/-- The retry loop `for duration in [i**2 for i in range(0, max_attempts + 1)]`
of `decorators.py` lines 101-114 and `job_handler.py` lines 73-82, running
attempts `i, i+1, ...` with `remaining` further attempts allowed after
attempt `i`. A successful attempt returns the handler's result at once; a
failing attempt is caught and the loop proceeds. The returned trace lists
the sleeps and handler invocations in order; the returned outcome is the
first handler success, or the diagnostic of the last failure. -/
def retry (handler : Nat → Job → Except String Job) (input_job : Job)
    (i : Nat) (remaining : Nat) : List Event × Except String Job :=
  match handler i input_job, remaining with
  | Except.ok output, _ => (attemptEvents i, Except.ok output)
  | Except.error exc, 0 => (attemptEvents i, Except.error exc)
  | Except.error _, r + 1 =>
    let rest := retry handler input_job (i + 1) r
    (attemptEvents i ++ rest.1, rest.2)

/-- A Python exception escaping a function uncaught. -/
inductive PyError where
  | jsonDecodeError
  | unboundLocalError
  | attributeError
deriving Repr, DecidableEq

/-- `try_handler` from `decorators.py` lines 96-129: run the retry loop over
attempts `0 .. max_attempts`; a successful attempt's result is returned
unchanged. If every attempt fails, the exhaustion block recomputes the
diagnostic from `sys.last_type`, `sys.last_value` and `sys.last_traceback`
(`decorators.py` lines 119-121); those attributes are created only when the
interactive interpreter prints a top-level traceback, so in an ordinary
process they are unset and the block raises `AttributeError` before the
failure record is built — the caller sees the exception, not a record. -/
def try_handler (handler : Nat → Job → Except String Job) (max_attempts : Nat)
    (input_job : Job) : List Event × Except PyError Job :=
  match retry handler input_job 0 max_attempts with
  | (tr, Except.ok output) => (tr, Except.ok output)
  | (tr, Except.error _) => (tr, Except.error PyError.attributeError)

/-- The event trace of attempts `i, i+1, ..., i+r`, each preceded by its
backoff wait. -/
def attemptTrace : Nat → Nat → List Event
  | i, 0 => attemptEvents i
  | i, r + 1 => attemptEvents i ++ attemptTrace (i + 1) r

/-- The attempt indices at which the handler was invoked, in order. -/
def callsOf (tr : List Event) : List Nat :=
  tr.filterMap fun e =>
    match e with
    | Event.call i => some i
    | Event.wait _ => none

/-- The durations of the blocking waits performed, in order. -/
def waitsOf (tr : List Event) : List Nat :=
  tr.filterMap fun e =>
    match e with
    | Event.wait d => some d
    | Event.call _ => none

/-- The configuration stored by `JobHandler.__init__` (`job_handler.py` lines
18-26): `_max_attempts` from the `max_tries` parameter (default 3) and
`_backoff_factor` from the `backoff_factor` parameter (default 2). -/
structure JobHandlerState where
  max_attempts : Nat
  backoff_factor : Nat
deriving Repr, DecidableEq

/-- `JobHandler.__init__`: read and store the two configuration parameters,
supplying the defaults when a parameter is absent. -/
def jobHandlerInit (max_tries : Option Nat) (backoff : Option Nat) :
    JobHandlerState :=
  { max_attempts := max_tries.getD 3, backoff_factor := backoff.getD 2 }

/-- `JobHandler._try_handle_job` (`job_handler.py` lines 66-93): the retry
loop bounded by `self._max_attempts`, followed by the exhaustion block,
which marks the deep-copied input as failed with `traceback.format_exc()`'s
post-loop constant as the recorded traceback. The method body mentions no
other field of the handler's configuration. -/
def tryHandleJob (st : JobHandlerState)
    (handle_job : Nat → Job → Except String Job) (input_job : Job) :
    List Event × Job :=
  match retry handle_job input_job 0 st.max_attempts with
  | (tr, Except.ok output) => (tr, output)
  | (tr, Except.error _) => (tr, mark_failed input_job format_exc_outside_handler)

/-- `JobHandler.handle_jobs` (`job_handler.py` lines 55-64): process each job
of the batch independently through `_try_handle_job`, preserving order. -/
def handle_jobs (st : JobHandlerState)
    (handle_job : Nat → Job → Except String Job) (input_jobs : List Job) :
    List Job :=
  input_jobs.map fun input_job => (tryHandleJob st handle_job input_job).2

/-- A raw JSON value presented to a compiled jobset validator: either a value
that is at least shaped like a jobset, or something else. Whether a shaped
value actually conforms to the schema is decided by the validator function,
which is an external collaborator. -/
inductive Raw where
  | jobset (js : Jobset)
  | malformed (tag : Nat)
deriving Repr, DecidableEq

/-- The body of one queue-delivered transport envelope, as seen by
`json.loads`: either it parses to a raw value, or `json.loads` raises
`json.JSONDecodeError`. -/
inductive Body where
  | parsed (value : Raw)
  | unparsable (tag : Nat)
deriving Repr, DecidableEq

/-- The envelope-decoding loop of `JobHandler.invoke` (`job_handler.py` lines
37-44): for each record, `json.loads(record['body'])` and then jobset
validation run inside a `try` whose `except` clause catches only
`JsonSchemaException`. A schema-invalid body is logged and skipped; an
unparsable body raises `json.JSONDecodeError`, which is not a
`JsonSchemaException` and so escapes the loop. Valid bodies extend the
accumulated `input_jobs` in order. -/
def collectInputJobs (validate : Raw → Option Jobset) :
    List Body → List Job → Except PyError (List Job)
  | [], acc => Except.ok acc
  | record :: rest, acc =>
    match record with
    | Body.unparsable _ => Except.error PyError.jsonDecodeError
    | Body.parsed value =>
      match validate value with
      | some body => collectInputJobs validate rest (acc ++ body.jobs)
      | none => collectInputJobs validate rest acc

/-- `JobHandler.invoke` (`job_handler.py` lines 28-53): decode and validate
each envelope of `event['Records']`, run `handle_jobs` on the collected jobs,
then egress-validate the rebuilt jobset, returning the validated jobset or
`None` when egress validation fails. The `Except` layer records an uncaught
exception escaping the method. -/
def invoke (validate : Raw → Option Jobset) (st : JobHandlerState)
    (handle_job : Nat → Job → Except String Job) (records : List Body) :
    Except PyError (Option Jobset) :=
  match collectInputJobs validate records [] with
  | Except.error e => Except.error e
  | Except.ok input_jobs =>
    let output_jobs := handle_jobs st handle_job input_jobs
    match validate (Raw.jobset { jobs := output_jobs }) with
    | some job_set => Except.ok (some job_set)
    | none => Except.ok none

/-- The value an injected `lambda_handler` gives back to the hosting
runtime: a validated jobset, or `None`. -/
inductive LambdaResult where
  | jobset (js : Jobset)
  | null
deriving Repr, DecidableEq

/-- The `lambda_handler` produced by `_generate_lambda_handler`
(`decorators.py` lines 140-168) for the default `returns_jobset = False`
wiring: ingress-validate the event, run the wrapped bulk handler on the
jobs, wrap the outputs, and egress-validate them, returning the validated
jobset or `None` on egress failure. The ingress `try` catches
`JsonSchemaException` and only logs it, after which `input_jobs =
input_jobset['jobs']` reads the never-assigned local `input_jobset` and
raises `UnboundLocalError`, which escapes the entry point. -/
def lambda_handler (validate : Raw → Option Jobset)
    (handler : List Job → List Job) (event : Raw) :
    Except PyError LambdaResult :=
  match validate event with
  | none => Except.error PyError.unboundLocalError
  | some input_jobset =>
    let output_jobs := handler input_jobset.jobs
    match validate (Raw.jobset { jobs := output_jobs }) with
    | some js => Except.ok (LambdaResult.jobset js)
    | none => Except.ok LambdaResult.null

/-- The process-wide registration state of `decorators.py`: the
`loaded_modules` set (line 17) and, for each module, the `lambda_handler`
attribute injected into it. Modules and installed entry points are
identified by numbers; the entry-point association list records the latest
injection first, as attribute assignment would. -/
structure RegistryState where
  loaded_modules : List Nat
  module_entry : List (Nat × Nat)
deriving Repr, DecidableEq

/-- The `job_handler` decorator (`decorators.py` lines 20-41): if the
handler's module is already in `loaded_modules` raise the conflict error;
otherwise record the module and inject the generated `lambda_handler`
(identified here by the wrapped handler) as the module's entry point. -/
def job_handler (st : RegistryState) (module : Nat) (handler : Nat) :
    Except String RegistryState :=
  if st.loaded_modules.contains module then
    Except.error "Multiple job handlers cannot be declared in one module"
  else
    Except.ok
      { loaded_modules := module :: st.loaded_modules
        module_entry := (module, handler) :: st.module_entry }

/-- The registration performed by the `bulk_job_handler` decorator's `inner`
(`decorators.py` lines 57-70): the same per-module conflict check and
entry-point injection, with the `returns_jobset` flag only affecting the
generated wrapper. -/
def bulk_job_handler (st : RegistryState) (module : Nat) (handler : Nat)
    (_returns_jobset : Bool) : Except String RegistryState :=
  if st.loaded_modules.contains module then
    Except.error "Multiple job handlers cannot be declared in one module"
  else
    Except.ok
      { loaded_modules := module :: st.loaded_modules
        module_entry := (module, handler) :: st.module_entry }

/-- `_SemVer` from `utilities.py` lines 19-83: a parsed three-component
version. -/
structure SemVer where
  major : Nat
  minor : Nat
  patch : Nat
deriving Repr, DecidableEq

/-- `_SemVer.__lt__` (`utilities.py` lines 53-61): a disjunction of the
componentwise strict comparisons. -/
def SemVer.lt (a b : SemVer) : Bool :=
  decide (a.major < b.major) || decide (a.minor < b.minor) ||
    decide (a.patch < b.patch)

/-- The numeric (lexicographic) strict order on semantic versions that the
words of the claim assume when speaking of the numerically greatest version;
stated here only for comparison with `SemVer.lt`, which is taken from the
source. -/
def SemVer.numericLt (a b : SemVer) : Bool :=
  decide (a.major < b.major) ||
    (a.major == b.major &&
      (decide (a.minor < b.minor) ||
        (a.minor == b.minor && decide (a.patch < b.patch))))

/-! ### Basic facts about the embedded operations -/

lemma retry_ok (handler : Nat → Job → Except String Job) (input_job : Job)
    (i r : Nat) (output : Job)
    (hok : handler i input_job = Except.ok output) :
    retry handler input_job i r = (attemptEvents i, Except.ok output) := by
  cases r <;> simp [retry, hok]

lemma retry_err_zero (handler : Nat → Job → Except String Job)
    (input_job : Job) (i : Nat) (e : String)
    (herr : handler i input_job = Except.error e) :
    retry handler input_job i 0 = (attemptEvents i, Except.error e) := by
  simp [retry, herr]

lemma retry_err_succ (handler : Nat → Job → Except String Job)
    (input_job : Job) (i r : Nat) (e : String)
    (herr : handler i input_job = Except.error e) :
    retry handler input_job i (r + 1) =
      (attemptEvents i ++ (retry handler input_job (i + 1) r).1,
        (retry handler input_job (i + 1) r).2) := by
  simp [retry, herr]

lemma attemptTrace_zero (i : Nat) : attemptTrace i 0 = attemptEvents i := rfl

lemma attemptTrace_succ (i r : Nat) :
    attemptTrace i (r + 1) = attemptEvents i ++ attemptTrace (i + 1) r := rfl

/-- When the handler fails on every attempt, the retry loop performs every
attempt and reports the diagnostic of the last one. -/
lemma retry_fail (handler : Nat → Job → Except String Job) (input_job : Job)
    (errs : Nat → String)
    (hfail : ∀ k, handler k input_job = Except.error (errs k)) :
    ∀ r i, retry handler input_job i r
      = (attemptTrace i r, Except.error (errs (i + r))) := by
  intro r
  induction r with
  | zero =>
    intro i
    rw [retry_err_zero handler input_job i (errs i) (hfail i)]
    rw [attemptTrace_zero, Nat.add_zero]
  | succ r ih =>
    intro i
    rw [retry_err_succ handler input_job i r (errs i) (hfail i), ih (i + 1)]
    rw [attemptTrace_succ]
    have e : i + 1 + r = i + (r + 1) := by omega
    rw [e]

/-- When the handler fails on the first `k` attempts and succeeds on attempt
`k`, the retry loop stops at attempt `k` and returns the handler's result. -/
lemma retry_first_ok (handler : Nat → Job → Except String Job)
    (input_job : Job) (errs : Nat → String) (output : Job) :
    ∀ k i r,
      (∀ j, j < k → handler (i + j) input_job = Except.error (errs (i + j))) →
      handler (i + k) input_job = Except.ok output → k ≤ r →
      retry handler input_job i r = (attemptTrace i k, Except.ok output) := by
  intro k
  induction k with
  | zero =>
    intro i r _ hsucc _
    rw [Nat.add_zero] at hsucc
    rw [retry_ok handler input_job i r output hsucc, attemptTrace_zero]
  | succ k ih =>
    intro i r hfail hsucc hkr
    have h0 : handler i input_job = Except.error (errs i) := by
      simpa using hfail 0 (Nat.succ_pos k)
    cases r with
    | zero => exact absurd hkr (by omega)
    | succ r =>
      rw [retry_err_succ handler input_job i r (errs i) h0]
      have ih' := ih (i + 1) r
        (fun j hj => by
          have h := hfail (j + 1) (by omega)
          have e1 : i + (j + 1) = i + 1 + j := by omega
          rw [e1] at h
          exact h)
        (by
          have e2 : i + (k + 1) = i + 1 + k := by omega
          rw [e2] at hsucc
          exact hsucc)
        (by omega)
      rw [ih', attemptTrace_succ]

/-- A successful outcome of the retry loop is some attempt's handler
result. -/
lemma retry_ok_of_result (handler : Nat → Job → Except String Job)
    (input_job : Job) (output : Job) :
    ∀ r i, (retry handler input_job i r).2 = Except.ok output →
      ∃ k, handler k input_job = Except.ok output := by
  intro r
  induction r with
  | zero =>
    intro i h
    cases hc : handler i input_job with
    | ok o =>
      rw [retry_ok handler input_job i 0 o hc] at h
      simp at h
      exact ⟨i, by rw [hc, h]⟩
    | error e =>
      rw [retry_err_zero handler input_job i e hc] at h
      simp at h
  | succ r ih =>
    intro i h
    cases hc : handler i input_job with
    | ok o =>
      rw [retry_ok handler input_job i (r + 1) o hc] at h
      simp at h
      exact ⟨i, by rw [hc, h]⟩
    | error e =>
      rw [retry_err_succ handler input_job i r e hc] at h
      exact ih (i + 1) h

lemma callsOf_append (l₁ l₂ : List Event) :
    callsOf (l₁ ++ l₂) = callsOf l₁ ++ callsOf l₂ := by
  simp [callsOf]

lemma waitsOf_append (l₁ l₂ : List Event) :
    waitsOf (l₁ ++ l₂) = waitsOf l₁ ++ waitsOf l₂ := by
  simp [waitsOf]

lemma callsOf_attemptEvents (i : Nat) : callsOf (attemptEvents i) = [i] := by
  by_cases h : i ^ 2 > 0 <;> simp [attemptEvents, callsOf, h]

lemma waitsOf_attemptEvents (i : Nat) :
    waitsOf (attemptEvents i) = if i ^ 2 > 0 then [i ^ 2] else [] := by
  by_cases h : i ^ 2 > 0 <;> simp [attemptEvents, waitsOf, h]

/-- The handler is called once per attempt, at attempts `i, ..., i + r`. -/
lemma callsOf_attemptTrace :
    ∀ r i, callsOf (attemptTrace i r) = List.range' i (r + 1) := by
  intro r
  induction r with
  | zero =>
    intro i
    rw [attemptTrace_zero, callsOf_attemptEvents, List.range'_one]
  | succ r ih =>
    intro i
    rw [attemptTrace_succ, callsOf_append, callsOf_attemptEvents, ih (i + 1),
      List.range'_succ i (r + 1) 1]
    simp

/-- Away from attempt 0, every attempt is preceded by its wait. -/
lemma waitsOf_attemptTrace_succ :
    ∀ r i, waitsOf (attemptTrace (i + 1) r)
      = (List.range' (i + 1) (r + 1)).map (fun k => k ^ 2) := by
  intro r
  induction r with
  | zero =>
    intro i
    rw [attemptTrace_zero, waitsOf_attemptEvents,
      if_pos (pow_pos (Nat.succ_pos i) 2), List.range'_one]
    simp
  | succ r ih =>
    intro i
    rw [attemptTrace_succ, waitsOf_append, waitsOf_attemptEvents,
      if_pos (pow_pos (Nat.succ_pos i) 2), ih (i + 1),
      List.range'_succ (i + 1) (r + 1) 1]
    simp

/-- The waits of a run starting at attempt 0: one wait of `k ^ 2` seconds
before each later attempt `k`, none before attempt 0. -/
lemma waitsOf_attemptTrace_zero :
    ∀ r, waitsOf (attemptTrace 0 r)
      = (List.range' 1 r).map (fun k => k ^ 2) := by
  intro r
  cases r with
  | zero =>
    rw [attemptTrace_zero, waitsOf_attemptEvents]
    simp
  | succ r =>
    rw [attemptTrace_succ, waitsOf_append, waitsOf_attemptEvents]
    have h := waitsOf_attemptTrace_succ r 0
    simp only [Nat.zero_add] at h
    rw [h]
    simp

/-- Every run starts with the unwaited attempt 0. -/
lemma attemptTrace_head :
    ∀ k, (attemptTrace 0 k).head? = some (Event.call 0) := by
  intro k
  cases k with
  | zero => rfl
  | succ k => rfl

/-- Each attempt's chunk of events occurs contiguously inside the trace. -/
lemma attemptEvents_isInfix_attemptTrace :
    ∀ r i j, i ≤ j → j ≤ i + r →
      List.IsInfix (attemptEvents j) (attemptTrace i r) := by
  intro r
  induction r with
  | zero =>
    intro i j h1 h2
    have hij : j = i := by omega
    subst hij
    exact ⟨[], [], by simp [attemptTrace]⟩
  | succ r ih =>
    intro i j h1 h2
    by_cases hij : j = i
    · subst hij
      exact ⟨[], attemptTrace (j + 1) r, by simp [attemptTrace]⟩
    · obtain ⟨s, t, hst⟩ := ih (i + 1) j (by omega) (by omega)
      refine ⟨attemptEvents i ++ s, t, ?_⟩
      show attemptEvents i ++ s ++ attemptEvents j ++ t
        = attemptEvents i ++ attemptTrace (i + 1) r
      rw [← hst]
      simp

/-- The exhaustion block only initializes `errors` (unconditionally, since
`hasattr` never sees the dict key), sets `job_status` and `traceback`, and
appends the generic message; every other field is copied from the input. -/
lemma mark_failed_eq (input_job : Job) (exception : String) :
    mark_failed input_job exception =
      { input_job with
          job_status := "job-failed"
          traceback := some exception
          errors := some ["SDS pipeline failed"] } := rfl

/-! ### Concrete records used in the closed statements -/

/-- A representative input job record. -/
def sampleJob : Job :=
  { product_id := "PID-001", job_id := "JID-001", job_status := "queued",
    errors := none, traceback := none, extra := [("cycle", "474")] }

/-- A job record that already carries an error entry. -/
def erroredJob : Job :=
  { product_id := "PID-002", job_id := "JID-002", job_status := "queued",
    errors := some ["previous error"], traceback := none, extra := [] }

/-- A successful handler output record. -/
def okJob : Job :=
  { product_id := "PID-001", job_id := "JID-001", job_status := "complete",
    errors := none, traceback := none, extra := [] }

/-- A handler that fails on attempts 0 and 1 and succeeds on attempt 2. -/
def c4Handler : Nat → Job → Except String Job :=
  fun i _ => if i < 2 then Except.error "transient failure" else Except.ok okJob

/-- A jobset delivered by the first envelope. -/
def jsA : Jobset := { jobs := [sampleJob] }

/-- A jobset delivered by the last envelope. -/
def jsB : Jobset := { jobs := [erroredJob] }

/-- A concrete compiled validator: accepts exactly the raw values already
shaped like jobsets. -/
def validateExact : Raw → Option Jobset :=
  fun r =>
    match r with
    | Raw.jobset js => some js
    | Raw.malformed _ => none

/-! ### Claim theorems -/

/-- C1: evaluation at the failing input. When every attempt fails, neither
exhaustion path records the last failure's diagnostic text: the decorators
path reads the unset `sys.last_type` and raises `AttributeError` instead of
returning any record, and the `JobHandler` path calls
`traceback.format_exc()` outside the except handler, recording the constant
`NoneType: None` text — the same `traceback` value (non-empty, but not the
failure's diagnostic) regardless of which exception the handler raised. -/
theorem c1_exhaustion_traceback_eval :
    (try_handler (fun _ _ => Except.error "boom") 1 sampleJob).2
        = Except.error PyError.attributeError
    ∧ (tryHandleJob (jobHandlerInit (some 1) none)
        (fun _ _ => Except.error "boom") sampleJob).2.traceback
        = some format_exc_outside_handler
    ∧ (tryHandleJob (jobHandlerInit (some 1) none)
        (fun _ _ => Except.error "a completely different failure") sampleJob).2.traceback
        = some format_exc_outside_handler
    ∧ (format_exc_outside_handler : String) ≠ "" :=
  ⟨rfl, rfl, rfl, by decide⟩

/-- C2: evaluation at the failing input. For a job whose `errors` list is
`[previous error]` and a handler that fails every attempt,
`_try_handle_job`'s returned record has `errors` exactly
`[SDS pipeline failed]`: the input's entries are not a prefix of it —
`hasattr(output_job, 'errors')` consults dict attributes, never keys, so the
exhaustion block resets `errors` to `[]` before appending, truncating the
existing entries. -/
theorem c2_errors_truncated_eval :
    erroredJob.errors = some ["previous error"]
    ∧ (tryHandleJob (jobHandlerInit (some 0) none)
        (fun _ _ => Except.error "boom") erroredJob).2.errors
        = some ["SDS pipeline failed"]
    ∧ "previous error" ∉ (["SDS pipeline failed"] : List String) :=
  ⟨rfl, rfl, by decide⟩

/-- C3 counterexample: with `maxAttempts = 1` and an always-failing handler
the processor performs a single wait of `1` second (attempt 1's wait is
`1 ^ 2`), not the claimed schedule `0, 1, 4, ..., (n-1)^2`, which for
`n = 1` is a single 0-second wait. -/
theorem c3_wait_schedule_counterexample :
    waitsOf (try_handler (fun _ _ => Except.error "boom") 1 sampleJob).1 = [1]
    ∧ ([1] : List Nat) ≠ [0] :=
  ⟨rfl, by decide⟩

/-- C3 (amended): with `maxAttempts = n` and a handler failing on every
call, the handler is invoked exactly `n + 1` times, at attempts `0 .. n`,
with blocking waits of `1, 4, ..., n^2` seconds before attempts `1 .. n` and
no wait before attempt 0. -/
theorem c3_attempt_counting_amended
    (handler : Nat → Job → Except String Job) (n : Nat) (input_job : Job)
    (errs : Nat → String)
    (hfail : ∀ k, handler k input_job = Except.error (errs k)) :
    callsOf (try_handler handler n input_job).1 = List.range' 0 (n + 1)
    ∧ (callsOf (try_handler handler n input_job).1).length = n + 1
    ∧ waitsOf (try_handler handler n input_job).1
        = (List.range' 1 n).map (fun k => k ^ 2)
    ∧ (try_handler handler n input_job).1.head? = some (Event.call 0) := by
  have htr : (try_handler handler n input_job).1 = attemptTrace 0 n := by
    unfold try_handler
    rw [retry_fail handler input_job errs hfail n 0]
  rw [htr]
  exact ⟨callsOf_attemptTrace n 0,
    by rw [callsOf_attemptTrace n 0, List.length_range'],
    waitsOf_attemptTrace_zero n, attemptTrace_head n⟩

/-- C3 witness: the amended schedule at `n = 1`. -/
theorem c3_witness :
    callsOf (try_handler (fun _ _ => Except.error "boom") 1 sampleJob).1
        = List.range' 0 2
    ∧ (callsOf (try_handler (fun _ _ => Except.error "boom") 1 sampleJob).1).length
        = 1 + 1
    ∧ waitsOf (try_handler (fun _ _ => Except.error "boom") 1 sampleJob).1
        = (List.range' 1 1).map (fun k => k ^ 2)
    ∧ (try_handler (fun _ _ => Except.error "boom") 1 sampleJob).1.head?
        = some (Event.call 0) :=
  c3_attempt_counting_amended (fun _ _ => Except.error "boom") 1 sampleJob
    (fun _ => "boom") (fun _ => rfl)

/-- C4: when the handler fails on attempts `0 .. k-1` and succeeds on
attempt `k ≤ maxAttempts`, the processor stops at attempt `k` and returns
exactly that attempt's handler result with no terminal-failure markers; the
trace performs no wait before attempt 0, blocks for exactly `i ^ 2` seconds
immediately before each later attempt `i` that runs, and its waits and calls
are precisely those of attempts `0 .. k`. -/
theorem c4_early_success
    (handler : Nat → Job → Except String Job) (max_attempts k : Nat)
    (input_job output : Job) (errs : Nat → String)
    (hk : k ≤ max_attempts)
    (hfail : ∀ j, j < k → handler j input_job = Except.error (errs j))
    (hsucc : handler k input_job = Except.ok output) :
    try_handler handler max_attempts input_job
        = (attemptTrace 0 k, Except.ok output)
    ∧ (attemptTrace 0 k).head? = some (Event.call 0)
    ∧ (∀ i, 0 < i → i ≤ k →
        List.IsInfix [Event.wait (i ^ 2), Event.call i] (attemptTrace 0 k))
    ∧ waitsOf (attemptTrace 0 k) = (List.range' 1 k).map (fun i => i ^ 2)
    ∧ callsOf (attemptTrace 0 k) = List.range' 0 (k + 1) := by
  have hres : retry handler input_job 0 max_attempts
      = (attemptTrace 0 k, Except.ok output) :=
    retry_first_ok handler input_job errs output k 0 max_attempts
      (fun j hj => by simpa using hfail j hj) (by simpa using hsucc) hk
  refine ⟨?_, attemptTrace_head k, ?_, waitsOf_attemptTrace_zero k,
    callsOf_attemptTrace k 0⟩
  · unfold try_handler
    rw [hres]
  · intro i hi hik
    have hinf := attemptEvents_isInfix_attemptTrace k 0 i (by omega) (by omega)
    have hev : attemptEvents i = [Event.wait (i ^ 2), Event.call i] := by
      rw [attemptEvents, if_pos (pow_pos hi 2)]
      rfl
    rw [hev] at hinf
    exact hinf

/-- C4 witness: `maxAttempts = 2`, failures on attempts 0 and 1, success on
attempt 2 — three calls, waits of 1 then 4 seconds. -/
theorem c4_witness :
    try_handler c4Handler 2 sampleJob = (attemptTrace 0 2, Except.ok okJob)
    ∧ (attemptTrace 0 2).head? = some (Event.call 0)
    ∧ List.IsInfix [Event.wait 1, Event.call 1] (attemptTrace 0 2)
    ∧ List.IsInfix [Event.wait 4, Event.call 2] (attemptTrace 0 2)
    ∧ waitsOf (attemptTrace 0 2) = (List.range' 1 2).map (fun i => i ^ 2)
    ∧ callsOf (attemptTrace 0 2) = List.range' 0 3 := by
  have h := c4_early_success c4Handler 2 2 sampleJob okJob
    (fun _ => "transient failure") (by omega)
    (fun j hj => by simp [c4Handler, hj]) (by simp [c4Handler])
  exact ⟨h.1, h.2.1, h.2.2.1 1 (by omega) (by omega),
    h.2.2.1 2 (by omega) (by omega), h.2.2.2.1, h.2.2.2.2⟩

/-- C5 counterexample: a batch of 3 envelopes whose 2nd has an unparsable
body does not yield the jobs of envelopes 1 and 3 — `json.JSONDecodeError`
is not a `JsonSchemaException`, so it escapes `invoke` and the whole batch
aborts. -/
theorem c5_unparsable_aborts_counterexample :
    invoke validateExact (jobHandlerInit none none) (fun _ j => Except.ok j)
        [Body.parsed (Raw.jobset jsA), Body.unparsable 0,
          Body.parsed (Raw.jobset jsB)]
      = Except.error PyError.jsonDecodeError
    ∧ (Except.error PyError.jsonDecodeError : Except PyError (Option Jobset))
        ≠ Except.ok (some { jobs := jsA.jobs ++ jsB.jobs }) :=
  ⟨rfl, fun h => nomatch h⟩

/-- C5 (amended): envelopes are decoded and validated independently, and an
envelope whose body parses but does not conform to the jobset schema is
logged and skipped, contributing zero job records, while the remaining
envelopes of the batch are still processed: with 3 parseable envelopes whose
2nd is non-conforming, dispatch collects exactly the jobs of envelopes 1 and
3 and completes. An envelope with an unparsable body, by contrast, aborts
the batch. -/
theorem c5_envelope_resilience_amended
    (validate : Raw → Option Jobset) (st : JobHandlerState)
    (handle_job : Nat → Job → Except String Job)
    (r1 rbad r3 : Raw) (js1 js3 : Jobset)
    (h1 : validate r1 = some js1) (hbad : validate rbad = none)
    (h3 : validate r3 = some js3) :
    collectInputJobs validate
        [Body.parsed r1, Body.parsed rbad, Body.parsed r3] []
      = Except.ok (js1.jobs ++ js3.jobs)
    ∧ invoke validate st handle_job
        [Body.parsed r1, Body.parsed rbad, Body.parsed r3]
      = Except.ok (validate (Raw.jobset
          { jobs := handle_jobs st handle_job (js1.jobs ++ js3.jobs) })) := by
  have hcol : collectInputJobs validate
      [Body.parsed r1, Body.parsed rbad, Body.parsed r3] []
      = Except.ok (js1.jobs ++ js3.jobs) := by
    simp [collectInputJobs, h1, hbad, h3]
  refine ⟨hcol, ?_⟩
  unfold invoke
  rw [hcol]
  show (match validate (Raw.jobset
        { jobs := handle_jobs st handle_job (js1.jobs ++ js3.jobs) }) with
      | some job_set => Except.ok (some job_set)
      | none => Except.ok none)
    = Except.ok (validate (Raw.jobset
        { jobs := handle_jobs st handle_job (js1.jobs ++ js3.jobs) }))
  cases hv : validate (Raw.jobset
      { jobs := handle_jobs st handle_job (js1.jobs ++ js3.jobs) }) with
  | some js => rfl
  | none => rfl

/-- C5 witness: a concrete 3-envelope batch whose 2nd body is parseable but
schema-invalid. -/
theorem c5_witness :
    collectInputJobs validateExact
        [Body.parsed (Raw.jobset jsA), Body.parsed (Raw.malformed 7),
          Body.parsed (Raw.jobset jsB)] []
      = Except.ok (jsA.jobs ++ jsB.jobs)
    ∧ invoke validateExact (jobHandlerInit none none) (fun _ j => Except.ok j)
        [Body.parsed (Raw.jobset jsA), Body.parsed (Raw.malformed 7),
          Body.parsed (Raw.jobset jsB)]
      = Except.ok (validateExact (Raw.jobset
          { jobs := handle_jobs (jobHandlerInit none none)
              (fun _ j => Except.ok j) (jsA.jobs ++ jsB.jobs) })) :=
  c5_envelope_resilience_amended validateExact (jobHandlerInit none none)
    (fun _ j => Except.ok j) (Raw.jobset jsA) (Raw.malformed 7)
    (Raw.jobset jsB) jsA jsB rfl rfl rfl

/-- The registration state at process start: no module loaded, no entry
point injected. -/
def regStart : RegistryState := { loaded_modules := [], module_entry := [] }

/-- The registration state after module 0 registered handler 10. -/
def regAfterFirst : RegistryState :=
  { loaded_modules := [0], module_entry := [(0, 10)] }

/-- The registration state after module 0 registered handler 10 and then
module 1 registered handler 20. -/
def regAfterSecond : RegistryState :=
  { loaded_modules := [1, 0], module_entry := [(1, 20), (0, 10)] }

/-- The registration state after module 5 registered handler 7. -/
def regModuleFive : RegistryState :=
  { loaded_modules := [5], module_entry := [(5, 7)] }

/-- C6 counterexample: after a first successful registration (module 0), a
second registration attempt from a different module (module 1) succeeds
instead of failing with the registration-conflict error — the tracking in
`loaded_modules` is per module, not per process. -/
theorem c6_second_module_registration_counterexample :
    job_handler regStart 0 10 = Except.ok regAfterFirst
    ∧ job_handler regAfterFirst 1 20 = Except.ok regAfterSecond :=
  ⟨rfl, rfl⟩

/-- C6 (amended): registration exclusivity holds per module: after any first
successful registration for a module, every further registration attempt for
that module — via `job_handler` or `bulk_job_handler` — fails immediately
with the registration-conflict error, and the module's entry point remains
the first registration's. -/
theorem c6_per_module_exclusivity_amended
    (st st' : RegistryState) (module handler h₂ : Nat) (rj : Bool)
    (hreg : job_handler st module handler = Except.ok st') :
    st'.module_entry.lookup module = some handler
    ∧ job_handler st' module h₂
        = Except.error "Multiple job handlers cannot be declared in one module"
    ∧ bulk_job_handler st' module h₂ rj
        = Except.error "Multiple job handlers cannot be declared in one module" := by
  unfold job_handler at hreg
  by_cases hc : st.loaded_modules.contains module
  · rw [if_pos hc] at hreg
    cases hreg
  · rw [if_neg hc] at hreg
    injection hreg with hst
    subst hst
    refine ⟨by simp [List.lookup], ?_, ?_⟩
    · unfold job_handler
      rw [if_pos (by simp)]
    · unfold bulk_job_handler
      rw [if_pos (by simp)]

/-- C6 witness: a first registration for module 5, then rejected second
attempts of both kinds for module 5. -/
theorem c6_witness :
    regModuleFive.module_entry.lookup 5 = some 7
    ∧ job_handler regModuleFive 5 99
        = Except.error "Multiple job handlers cannot be declared in one module"
    ∧ bulk_job_handler regModuleFive 5 88 true
        = Except.error "Multiple job handlers cannot be declared in one module" :=
  ⟨(c6_per_module_exclusivity_amended regStart regModuleFive 5 7 99 true rfl).1,
    (c6_per_module_exclusivity_amended regStart regModuleFive 5 7 99 true rfl).2.1,
    (c6_per_module_exclusivity_amended regStart regModuleFive 5 7 88 true rfl).2.2⟩

/-- C7: evaluation at the failing input. For an event that fails ingress
validation, the injected `lambda_handler` does not return a jobset or the
null signal: its `except` clause only logs, after which the unassigned local
`input_jobset` is read and `UnboundLocalError` escapes the entry point. -/
theorem c7_invalid_event_crash_eval :
    lambda_handler validateExact (fun jobs => jobs) (Raw.malformed 0)
      = Except.error PyError.unboundLocalError := rfl

/-- C8: under the documented precondition that the handler returns a job
with the same `product_id` as its input, every record the per-job path
produces has the input's `product_id`: the `JobHandler` path's output —
handler success or terminal failure — preserves it, and on the decorators
path every normally returned record (a handler success; exhaustion there
raises instead of producing a record) preserves it as well. -/
theorem c8_product_id_preserved
    (handle_job : Nat → Job → Except String Job) (st : JobHandlerState)
    (max_attempts : Nat) (input_job : Job)
    (hpres : ∀ k output, handle_job k input_job = Except.ok output →
      output.product_id = input_job.product_id) :
    (tryHandleJob st handle_job input_job).2.product_id = input_job.product_id
    ∧ (∀ output,
        (try_handler handle_job max_attempts input_job).2 = Except.ok output →
        output.product_id = input_job.product_id) := by
  constructor
  · unfold tryHandleJob
    cases hres : retry handle_job input_job 0 st.max_attempts with
    | mk tr res =>
      cases res with
      | ok output =>
        have hok : (retry handle_job input_job 0 st.max_attempts).2
            = Except.ok output := by
          rw [hres]
        obtain ⟨k, hk⟩ :=
          retry_ok_of_result handle_job input_job output st.max_attempts 0 hok
        show output.product_id = input_job.product_id
        exact hpres k output hk
      | error exc =>
        show (mark_failed input_job format_exc_outside_handler).product_id
          = input_job.product_id
        rw [mark_failed_eq]
  · intro output hout
    unfold try_handler at hout
    cases hres : retry handle_job input_job 0 max_attempts with
    | mk tr res =>
      rw [hres] at hout
      cases res with
      | ok o =>
        have hout' : (Except.ok o : Except PyError Job) = Except.ok output := hout
        injection hout' with ho
        subst ho
        have hok : (retry handle_job input_job 0 max_attempts).2
            = Except.ok o := by
          rw [hres]
        obtain ⟨k, hk⟩ :=
          retry_ok_of_result handle_job input_job o max_attempts 0 hok
        exact hpres k o hk
      | error e =>
        have hout' : (Except.error PyError.attributeError : Except PyError Job)
            = Except.ok output := hout
        cases hout'

/-- C8 witness: the terminal-failure path (always-raising handler) and the
success path (handler returning a distinct record with the same
`product_id`) at concrete inputs. -/
theorem c8_witness :
    (tryHandleJob (jobHandlerInit none none)
        (fun _ _ => Except.error "boom") sampleJob).2.product_id
      = sampleJob.product_id
    ∧ (tryHandleJob (jobHandlerInit none none)
        (fun _ _ => Except.ok okJob) sampleJob).2.product_id
      = sampleJob.product_id
    ∧ okJob.product_id = sampleJob.product_id :=
  ⟨(c8_product_id_preserved (fun _ _ => Except.error "boom")
      (jobHandlerInit none none) 1 sampleJob (fun _ _ h => nomatch h)).1,
    (c8_product_id_preserved (fun _ _ => Except.ok okJob)
      (jobHandlerInit none none) 1 sampleJob
      (fun _ output hq => by injection hq with h'; rw [← h']; rfl)).1,
    (c8_product_id_preserved (fun _ _ => Except.ok okJob)
      (jobHandlerInit none none) 1 sampleJob
      (fun _ output hq => by injection hq with h'; rw [← h']; rfl)).2 okJob rfl⟩

/-- C9: `backoff_factor` has no effect on the processor: two stored
configurations that agree on `max_attempts` (in particular, two that differ
only in `backoff_factor`) produce the identical event trace and returned
record for every handler and job — `_try_handle_job` reads only
`_max_attempts`, and the wait schedule is always `i ^ 2`. -/
theorem c9_backoff_factor_unused
    (st₁ st₂ : JobHandlerState) (hmax : st₁.max_attempts = st₂.max_attempts)
    (handle_job : Nat → Job → Except String Job) (input_job : Job) :
    tryHandleJob st₁ handle_job input_job
      = tryHandleJob st₂ handle_job input_job := by
  unfold tryHandleJob
  rw [hmax]

/-- C9 witness: default `max_tries`, `backoff_factor` 2 versus 99. -/
theorem c9_witness :
    tryHandleJob (jobHandlerInit none (some 2))
        (fun _ _ => Except.error "boom") sampleJob
      = tryHandleJob (jobHandlerInit none (some 99))
        (fun _ _ => Except.error "boom") sampleJob :=
  c9_backoff_factor_unused (jobHandlerInit none (some 2))
    (jobHandlerInit none (some 99)) rfl
    (fun _ _ => Except.error "boom") sampleJob

/-- C10: `_SemVer.__lt__` is not a strict order: under it `2.0.0 < 1.0.5`
and `1.0.5 < 2.0.0` both hold even though the two versions differ, while the
numeric (lexicographic) order does not place `2.0.0` below `1.0.5` — so a
sort of collected versions keyed on this comparison carries no
greatest-version guarantee. -/
theorem c10_semver_lt_not_strict_order :
    SemVer.lt { major := 2, minor := 0, patch := 0 }
        { major := 1, minor := 0, patch := 5 } = true
    ∧ SemVer.lt { major := 1, minor := 0, patch := 5 }
        { major := 2, minor := 0, patch := 0 } = true
    ∧ ({ major := 2, minor := 0, patch := 0 } : SemVer)
        ≠ { major := 1, minor := 0, patch := 5 }
    ∧ SemVer.numericLt { major := 2, minor := 0, patch := 0 }
        { major := 1, minor := 0, patch := 5 } = false :=
  ⟨rfl, rfl, by decide, rfl⟩

end Swodlr
